import Mathlib

/-!
Verification of the content-sorting, partitioning, RSS-feed and OG-image
layer of the aurorascharff.no site.

Dates are embedded as natural numbers in the digit layout yyyymmddHHMM
(for example, `2025-11-28T08:00:00Z` becomes `202511280800`).  The code
only compares dates, so any order-and-equality preserving encoding of the
ISO timestamps is adequate.
-/

/-- A loaded speaking-collection entry, as described by the frontmatter of
the files under `src/content/speaking` and consumed by `src/pages/about.md`
and the speaking RSS route.  Optional frontmatter fields are `Option`s. -/
structure ContentEntry where
  organizer : String
  name : String
  date : Nat
  completed : Bool
  address : Option String
  link : Option String
  websiteLink : Option String
  description : Option String
  deriving DecidableEq

/-- Convenience constructor for example entries: only organizer, name,
date and the completed flag are given, the optional fields are absent. -/
def mkEntry (org nm : String) (d : Nat) (c : Bool) : ContentEntry :=
  { organizer := org, name := nm, date := d, completed := c,
    address := none, link := none, websiteLink := none, description := none }

/-- Modelled from the spec: step of the stable descending sort.  The
utility `src/utils/getSortedEvents.ts` is not under `src/` (only its
callers in `src/pages/about.md` and the speaking RSS route import it).
The spec states the contract: "given a sequence of ContentEntry, returns a
new sequence ordered by `date` descending (ties broken by input order —
stable sort required)".  This inserts an entry into an already descending
list, placing it after every strictly later entry and before every entry
that is not strictly later, so that ties keep input order. -/
def insertByDateDesc (e : ContentEntry) : List ContentEntry → List ContentEntry
  | [] => [e]
  | x :: xs => if e.date < x.date then x :: insertByDateDesc e xs else e :: x :: xs

/-- Modelled from the spec: `getSortedEvents`, a stable insertion sort by
`date` descending, returning a new sequence (see `insertByDateDesc`). -/
def getSortedEvents : List ContentEntry → List ContentEntry
  | [] => []
  | x :: xs => insertByDateDesc x (getSortedEvents xs)

/-- From `src/pages/about.md` line 34:
`const pastEvents = sortedEvents.filter(event => event.data.completed);`. -/
def pastEvents (sortedEvents : List ContentEntry) : List ContentEntry :=
  sortedEvents.filter (fun e => e.completed)

/-- From `src/pages/about.md` lines 35 to 37:
`const upcomingEvents = sortedEvents.filter(event => !event.data.completed).reverse();`. -/
def upcomingEvents (sortedEvents : List ContentEntry) : List ContentEntry :=
  (sortedEvents.filter (fun e => !e.completed)).reverse

/-- One item of the speaking RSS feed, with the four fields built by the
`items` mapping of the speaking RSS route (`GET`). -/
structure RSSItem where
  link : String
  title : String
  description : String
  pubDate : Nat
  deriving DecidableEq

/-- JS `array.filter(Boolean)` over `(string | undefined)` values:
`Boolean(x)` is `false` exactly for `undefined` and for the empty string,
so both are dropped and the remaining strings are kept in order. -/
def filterBoolean (xs : List (Option String)) : List String :=
  xs.filterMap (fun v =>
    match v with
    | none => none
    | some s => if s = "" then none else some s)

/-- JS `array.join(sep)`: concatenates the strings with `sep` between
consecutive elements; the empty array joins to the empty string. -/
def joinWith (sep : String) : List String → String
  | [] => ""
  | [x] => x
  | x :: xs => x ++ sep ++ joinWith sep xs

/-- The `items` mapping of the speaking RSS route, from the source:
`link: data.link ?? data.websiteLink ?? "speaking/"`,
`title: ` the name and the organizer joined by an at sign,
`description: [data.description, data.address].filter(Boolean).join(" | ")`,
`pubDate: new Date(data.date)`. -/
def toRSSItem (e : ContentEntry) : RSSItem :=
  { link := e.link.getD (e.websiteLink.getD "speaking/"),
    title := e.name ++ " @ " ++ e.organizer,
    description := joinWith " | " (filterBoolean [e.description, e.address]),
    pubDate := e.date }

/-- The item list of the speaking RSS feed, from the source of the route:
`getSortedEvents(events).filter(event => event.data.completed)` mapped
through the item constructor. -/
def speakingFeedItems (events : List ContentEntry) : List RSSItem :=
  ((getSortedEvents events).filter (fun e => e.completed)).map toRSSItem

/-- Markup tree produced by the OG templates: a text node, or an element
with a tag, an ordered list of style properties (key and value) and a
list of children.  The rasterizer that turns this tree into PNG bytes is
an external collaborator and is itself deterministic, so byte identity of
rendered images reduces to equality of these trees. -/
inductive Node where
  | text : String → Node
  | el : String → List (String × String) → List Node → Node

/-- A loaded blog post as consumed by the post OG template: the fields of
the blog frontmatter that the template can reach. -/
structure BlogPost where
  title : String
  author : String
  pubDatetime : Nat
  description : Option String
  tags : List String
  draft : Bool
  deriving DecidableEq

/-- Short month names used by the en-GB date format. -/
def monthShort : Nat → String
  | 1 => "Jan" | 2 => "Feb" | 3 => "Mar" | 4 => "Apr"
  | 5 => "May" | 6 => "Jun" | 7 => "Jul" | 8 => "Aug"
  | 9 => "Sep" | 10 => "Oct" | 11 => "Nov" | 12 => "Dec"
  | _ => ""

/-- `date.toLocaleDateString("en-GB", { year: "numeric", month: "short",
day: "numeric" })` on a date encoded as yyyymmddHHMM: day, short month
name and year separated by spaces (for example "8 Nov 2024").  The locale
argument is pinned in the source, so the output depends only on the date. -/
def formatDateEnGB (d : Nat) : String :=
  toString (d / 10000 % 100) ++ " " ++ monthShort (d / 1000000 % 100)
    ++ " " ++ toString (d / 100000000)

/-- The post OG template, transcribed from
`src/utils/og-templates/post.tsx`: a fixed tree of styled divs, the post
title, the author and the formatted publication date.  Only `title`,
`author` and `pubDatetime` of the post are read. -/
def postTemplate (post : BlogPost) : Node :=
  Node.el "div"
    [("background",
       "linear-gradient(135deg, rgb(250, 252, 252) 0%, rgb(241, 186, 212) 100%)"),
     ("width", "100%"), ("height", "100%"), ("display", "flex"),
     ("alignItems", "center"), ("justifyContent", "center")]
    [Node.el "div"
       [("position", "absolute"), ("top", "-1px"), ("right", "-1px"),
        ("border", "4px solid rgb(227, 169, 198)"),
        ("background", "rgba(234, 206, 219, 0.3)"), ("opacity", "0.9"),
        ("borderRadius", "4px"), ("display", "flex"),
        ("justifyContent", "center"), ("margin", "2.5rem"),
        ("width", "88%"), ("height", "80%")] [],
     Node.el "div"
       [("border", "4px solid rgb(227, 169, 198)"),
        ("background", "rgba(250, 252, 252, 0.95)"),
        ("borderRadius", "4px"), ("display", "flex"),
        ("justifyContent", "center"), ("margin", "2rem"),
        ("width", "88%"), ("height", "80%")]
       [Node.el "div"
          [("display", "flex"), ("flexDirection", "column"),
           ("justifyContent", "space-between"), ("margin", "20px"),
           ("width", "90%"), ("height", "90%")]
          [Node.el "p"
             [("fontSize", "60"), ("fontWeight", "bold"),
              ("maxHeight", "84%"), ("overflow", "hidden"),
              ("color", "rgb(34, 46, 54)"), ("margin", "0")]
             [Node.text post.title],
           Node.el "div"
             [("display", "flex"), ("justifyContent", "space-between"),
              ("width", "100%"), ("marginBottom", "8px"), ("fontSize", "28")]
             [Node.el "span" [("color", "#6b7280")]
                [Node.text "by ",
                 Node.el "span" [("color", "transparent")]
                   [Node.text "\x22"],
                 Node.el "span"
                   [("overflow", "hidden"), ("fontWeight", "bold"),
                    ("color", "rgb(211, 0, 106)")]
                   [Node.text post.author]],
              Node.el "span" [("color", "#6b7280")]
                [Node.text (formatDateEnGB post.pubDatetime)]]]]]

/-- The site configuration record read by the site OG template
(`SITE` in the site config module). -/
structure SiteConfig where
  title : String
  desc : String
  website : String
  deriving DecidableEq

/-- `new URL(url).hostname`: the part after the scheme separator, before
the first slash, with any port removed. -/
def urlHostname (url : String) : String :=
  let rest := ((url.splitOn "://").getD 1 url)
  let host := ((rest.splitOn "/").getD 0 rest)
  ((host.splitOn ":").getD 0 host)

/-- The site OG template, transcribed from
`src/utils/og-templates/site.tsx`: a fixed tree of styled divs, the site
title, the site blurb and the hostname of the site URL.  It reads only
the `SITE` configuration record. -/
def siteTemplate (site : SiteConfig) : Node :=
  Node.el "div"
    [("background", "rgb(25, 22, 28)"), ("width", "100%"),
     ("height", "100%"), ("display", "flex"),
     ("alignItems", "center"), ("justifyContent", "center")]
    [Node.el "div"
       [("border", "4px solid rgb(235, 155, 185)"),
        ("background", "rgb(25, 22, 28)"), ("borderRadius", "4px"),
        ("display", "flex"), ("justifyContent", "center"),
        ("margin", "2rem"), ("width", "88%"), ("height", "80%")]
       [Node.el "div"
          [("display", "flex"), ("flexDirection", "column"),
           ("justifyContent", "space-between"), ("margin", "20px"),
           ("width", "90%"), ("height", "90%")]
          [Node.el "div"
             [("display", "flex"), ("flexDirection", "column"),
              ("justifyContent", "center"), ("alignItems", "center"),
              ("height", "90%"), ("maxHeight", "90%"),
              ("overflow", "hidden"), ("textAlign", "center")]
             [Node.el "p"
                [("fontSize", "72"), ("fontWeight", "bold"),
                 ("color", "rgb(235, 155, 185)"), ("margin", "0"),
                 ("marginBottom", "20px")]
                [Node.text site.title],
              Node.el "p"
                [("fontSize", "28"), ("color", "rgb(180, 170, 175)"),
                 ("margin", "0")]
                [Node.text site.desc]],
           Node.el "div"
             [("display", "flex"), ("justifyContent", "flex-end"),
              ("width", "100%"), ("marginBottom", "8px"), ("fontSize", "28")]
             [Node.el "span"
                [("overflow", "hidden"), ("fontWeight", "bold"),
                 ("color", "rgb(235, 155, 185)")]
                [Node.text (urlHostname site.website)]]]]]

/-- Modelled from the spec: the raw input of the OG image endpoint, a
post whose required `title` field may be missing.  The endpoint and the
schema validation wiring are not under `src/` (only the templates are). -/
structure RawPost where
  title : Option String
  author : String
  pubDatetime : Nat
  description : Option String
  tags : List String
  draft : Bool
  deriving DecidableEq

/-- Modelled from the spec: the OG image render operation.  The spec
states: "if required fields (title) are missing, fail with a validation
error rather than emitting a malformed image".  A missing title yields a
validation error; otherwise the post template is rendered. -/
def renderOgImage (p : RawPost) : Except String Node :=
  match p.title with
  | none => Except.error "validation error: missing required field: title"
  | some t =>
      Except.ok (postTemplate
        { title := t, author := p.author, pubDatetime := p.pubDatetime,
          description := p.description, tags := p.tags, draft := p.draft })

/-- A raw frontmatter date field: absent, present but not a parseable
timestamp (with its raw text), or a parsed timestamp. -/
inductive DateField where
  | missing : DateField
  | malformed : String → DateField
  | valid : Nat → DateField
  deriving DecidableEq

/-- Whether a raw date field carries a parsed timestamp. -/
def DateField.isValid : DateField → Bool
  | .valid _ => true
  | _ => false

/-- A speaking entry as read before date validation: the same fields as
`ContentEntry`, with the date still a raw `DateField`. -/
structure RawEntry where
  organizer : String
  name : String
  date : DateField
  completed : Bool
  address : Option String
  link : Option String
  websiteLink : Option String
  description : Option String
  deriving DecidableEq

/-- Modelled from the spec: parsing one date field, failing with a
descriptive message on a missing or malformed value. -/
def parseDate : DateField → Except String Nat
  | .missing => Except.error "missing date field"
  | .malformed raw => Except.error ("malformed date value: " ++ raw)
  | .valid t => Except.ok t

/-- The entry obtained from a raw entry once its date has parsed to `t`. -/
def RawEntry.withDate (r : RawEntry) (t : Nat) : ContentEntry :=
  { organizer := r.organizer, name := r.name, date := t,
    completed := r.completed, address := r.address, link := r.link,
    websiteLink := r.websiteLink, description := r.description }

/-- Modelled from the spec: parsing the dates of a raw entry sequence,
stopping at the first missing or malformed date with its error. -/
def parseDates : List RawEntry → Except String (List ContentEntry)
  | [] => Except.ok []
  | r :: rs =>
      match parseDate r.date with
      | Except.error msg => Except.error msg
      | Except.ok t =>
          match parseDates rs with
          | Except.error msg => Except.error msg
          | Except.ok es => Except.ok (r.withDate t :: es)

/-- Modelled from the spec: the checked sorter.  The spec requires that
malformed date values "fail fast with a descriptive error rather than
silently sorting incorrectly" and that there are no other error
conditions; with all dates valid it returns the sorted sequence. -/
def getSortedEventsChecked (l : List RawEntry) : Except String (List ContentEntry) :=
  match parseDates l with
  | Except.error msg => Except.error msg
  | Except.ok es => Except.ok (getSortedEvents es)

/-- A store of arrays addressed by allocation index, used to state that
the about-page computation leaves earlier arrays untouched.  JS arrays
are heap values: `filter` allocates a fresh array while `reverse` flips
an array in place. -/
structure Heap where
  arrays : List (List ContentEntry)

/-- The array held at index `i`, the empty array when out of range. -/
def Heap.getArr (h : Heap) (i : Nat) : List ContentEntry :=
  h.arrays.getD i []

/-- Allocates a fresh array holding `v` and returns its index. -/
def Heap.alloc (h : Heap) (v : List ContentEntry) : Nat × Heap :=
  (h.arrays.length, ⟨h.arrays ++ [v]⟩)

/-- JS `array.filter(p)`: reads the array at `i` and allocates a fresh
array with the entries satisfying `p`. -/
def Heap.filterAlloc (h : Heap) (i : Nat) (p : ContentEntry → Bool) : Nat × Heap :=
  h.alloc ((h.getArr i).filter p)

/-- JS `array.reverse()`: flips the array at `i` in place and returns the
same index. -/
def Heap.reverseInPlace (h : Heap) (i : Nat) : Heap :=
  ⟨h.arrays.set i (h.getArr i).reverse⟩

/-- Modelled from the spec: `getSortedEvents` as a heap operation.  The
spec states it "returns a new sequence" with "no mutation of input", so
it reads the array at `i` and allocates a fresh sorted array. -/
def Heap.getSortedEventsAlloc (h : Heap) (i : Nat) : Nat × Heap :=
  h.alloc (getSortedEvents (h.getArr i))

/-- The computation of `src/pages/about.md` lines 32 to 37 over the heap
model, starting from a heap holding only the loaded `events` array at
index 0: index 1 is `sortedEvents`, index 2 is `pastEvents`, index 3 is
the filtered upcoming array, reversed in place at the end. -/
def aboutPageHeap (events : List ContentEntry) : Heap :=
  let h0 : Heap := ⟨[events]⟩
  let s1 := h0.getSortedEventsAlloc 0
  let s2 := s1.2.filterAlloc s1.1 (fun e => e.completed)
  let s3 := s2.2.filterAlloc s1.1 (fun e => !e.completed)
  s3.2.reverseInPlace s3.1

/-- Example entry dated 2024-01-01, from the sorting example of the spec. -/
def exJan24 : ContentEntry := mkEntry "ex" "jan 2024" 202401010000 true

/-- Example entry dated 2024-06-01, from the sorting example of the spec. -/
def exJun24 : ContentEntry := mkEntry "ex" "jun 2024" 202406010000 true

/-- Example entry dated 2023-01-01, from the sorting example of the spec. -/
def exJan23 : ContentEntry := mkEntry "ex" "jan 2023" 202301010000 true

/-- First entry of the partition example of the spec (completed). -/
def exF1 : ContentEntry := mkEntry "ex" "e1" 202505050000 true

/-- Second entry of the partition example of the spec (not completed). -/
def exF2 : ContentEntry := mkEntry "ex" "e2" 202504040000 false

/-- Third entry of the partition example of the spec (completed). -/
def exF3 : ContentEntry := mkEntry "ex" "e3" 202503030000 true

/-- Fourth entry of the partition example of the spec (not completed). -/
def exF4 : ContentEntry := mkEntry "ex" "e4" 202502020000 false

/-- Fifth entry of the partition example of the spec (completed). -/
def exF5 : ContentEntry := mkEntry "ex" "e5" 202501010000 true

/-- The five entries of the partition example of the spec, with completed
flags true, false, true, false, true in date-descending order. -/
def exFive : List ContentEntry := [exF1, exF2, exF3, exF4, exF5]

/-- First not-completed entry of the order-preservation counterexample,
modelled on the upcoming INIT Conference 2025 talk. -/
def cexUpA : ContentEntry :=
  { organizer := "INIT Conference 2025",
    name := "Talk: React Server Components: A New Way to Build Fast and Interactive Web Apps",
    date := 202510100800, completed := false, address := none, link := none,
    websiteLink := none, description := none }

/-- Second not-completed entry of the order-preservation counterexample,
modelled on the upcoming React Universe Conf 2025 talk. -/
def cexUpB : ContentEntry :=
  { organizer := "React Universe Conf 2025",
    name := "Talk: Modern React Patterns: Concurrent Rendering and Actions",
    date := 202509030800, completed := false, address := none, link := none,
    websiteLink := none, description := none }

/-- A date-descending sorted sequence holding the two upcoming entries. -/
def cexSorted : List ContentEntry := [cexUpA, cexUpB]

/-- The completed React Advanced London 2025 talk entry in the variant
without an address (frontmatter: organizer React Advanced London 2025,
date 2025-11-28T08:00:00Z, completed true, a youtu.be link). -/
def raTalkNoAddr : ContentEntry :=
  { organizer := "React Advanced London 2025",
    name := "Talk: Building Interactive, Async UI with React 19 and Ariakit",
    date := 202511280800, completed := true, address := none,
    link := some "https://youtu.be/gIsQbOET_No?t=19747",
    websiteLink := some "https://reactadvanced.com", description := none }

/-- The completed React Advanced London 2025 talk entry in the variant
with the address London, UK and a gitnation link (frontmatter: same
organizer, same date 2025-11-28T08:00:00Z, completed true). -/
def raTalkAddr : ContentEntry :=
  { organizer := "React Advanced London 2025",
    name := "Talk: Building Interactive, Async UI with React 19 and Ariakit",
    date := 202511280800, completed := true, address := some "London, UK",
    link := some "https://gitnation.com/contents/building-interactive-async-ui-with-react-19-and-ariakit",
    websiteLink := some "https://reactadvanced.com", description := none }

/-- A speaking collection holding the two completed React Advanced London
2025 entries, which share the date 2025-11-28T08:00:00Z. -/
def raCollection : List ContentEntry := [raTalkNoAddr, raTalkAddr]

/-- A speaking entry whose description is present but empty and whose
address is "Remote", used against the feed description claim. -/
def cexFeedEntry : ContentEntry :=
  { organizer := "PodRocket Podcast",
    name := "Podcast: Modern React Patterns with Aurora Scharff",
    date := 202508210800, completed := true, address := some "Remote",
    link := some "https://www.youtube.com/watch?v=NAAizRXlOfo",
    websiteLink := some "https://podrocket.logrocket.com",
    description := some "" }

/-- The item description as worded by the claim: the description and the
address of the entry joined with " | ", dropping whichever of the two is
missing.  Stated from the words of the claim, to be compared with the
source mapping `toRSSItem`. -/
def specItemDescription (d a : Option String) : String :=
  match d, a with
  | some x, some y => x ++ " | " ++ y
  | some x, none => x
  | none, some y => y
  | none, none => ""

/-- Collapses a JS-falsy string value: an absent value stays absent and
an empty string becomes absent. -/
def truthy : Option String → Option String
  | none => none
  | some s => if s = "" then none else some s

/-- The item description as worded by the amended claim: the description
and the address joined with " | ", dropping whichever of the two is
missing or empty. -/
def amendedItemDescription (d a : Option String) : String :=
  match truthy d, truthy a with
  | some x, some y => x ++ " | " ++ y
  | some x, none => x
  | none, some y => y
  | none, none => ""

theorem mem_insertByDateDesc {a e : ContentEntry} {l : List ContentEntry} :
    a ∈ insertByDateDesc e l ↔ a = e ∨ a ∈ l := by
  induction l with
  | nil => simp [insertByDateDesc]
  | cons x xs ih =>
      by_cases h : e.date < x.date
      · simp only [insertByDateDesc, if_pos h, List.mem_cons, ih]
        tauto
      · simp only [insertByDateDesc, if_neg h, List.mem_cons]

theorem perm_insertByDateDesc (e : ContentEntry) (l : List ContentEntry) :
    (insertByDateDesc e l).Perm (e :: l) := by
  induction l with
  | nil => simp [insertByDateDesc]
  | cons x xs ih =>
      by_cases h : e.date < x.date
      · simpa only [insertByDateDesc, if_pos h] using
          (ih.cons x).trans (List.Perm.swap e x xs)
      · simp only [insertByDateDesc, if_neg h]
        exact List.Perm.refl _

theorem pairwise_insertByDateDesc {e : ContentEntry} {l : List ContentEntry}
    (h : List.Pairwise (fun a b => b.date ≤ a.date) l) :
    List.Pairwise (fun a b => b.date ≤ a.date) (insertByDateDesc e l) := by
  induction l with
  | nil => simp [insertByDateDesc]
  | cons x xs ih =>
      obtain ⟨hx, hxs⟩ := List.pairwise_cons.mp h
      by_cases hc : e.date < x.date
      · simp only [insertByDateDesc, if_pos hc]
        refine List.pairwise_cons.mpr ⟨?_, ih hxs⟩
        intro y hy
        rcases mem_insertByDateDesc.mp hy with rfl | hmem
        · exact Nat.le_of_lt hc
        · exact hx y hmem
      · simp only [insertByDateDesc, if_neg hc]
        refine List.pairwise_cons.mpr ⟨?_, h⟩
        intro y hy
        rcases List.mem_cons.mp hy with rfl | hmem
        · exact Nat.le_of_not_lt hc
        · exact Nat.le_trans (hx y hmem) (Nat.le_of_not_lt hc)

theorem getSortedEvents_perm (l : List ContentEntry) :
    (getSortedEvents l).Perm l := by
  induction l with
  | nil => exact List.Perm.refl _
  | cons x xs ih =>
      exact (perm_insertByDateDesc x (getSortedEvents xs)).trans (ih.cons x)

theorem getSortedEvents_pairwise (l : List ContentEntry) :
    List.Pairwise (fun a b => b.date ≤ a.date) (getSortedEvents l) := by
  induction l with
  | nil => simp [getSortedEvents]
  | cons x xs ih => exact pairwise_insertByDateDesc ih

theorem filter_date_insertByDateDesc (e : ContentEntry) (l : List ContentEntry) (d : Nat) :
    (insertByDateDesc e l).filter (fun x => x.date == d)
      = if e.date = d then e :: l.filter (fun x => x.date == d)
        else l.filter (fun x => x.date == d) := by
  induction l with
  | nil =>
      by_cases hed : e.date = d <;>
        simp [insertByDateDesc, List.filter_cons, hed]
  | cons x xs ih =>
      by_cases hc : e.date < x.date
      · simp only [insertByDateDesc, if_pos hc, List.filter_cons]
        by_cases hxd : x.date = d
        · have hed : ¬ e.date = d := by omega
          simp [hxd, hed, ih]
        · simp [hxd, ih]
      · simp only [insertByDateDesc, if_neg hc, List.filter_cons]
        by_cases hed : e.date = d <;> simp [hed]

theorem getSortedEvents_stable (l : List ContentEntry) (d : Nat) :
    (getSortedEvents l).filter (fun x => x.date == d)
      = l.filter (fun x => x.date == d) := by
  induction l with
  | nil => rfl
  | cons x xs ih =>
      by_cases hxd : x.date = d <;>
        simp [getSortedEvents, filter_date_insertByDateDesc, hxd, List.filter_cons, ih]

theorem parseDates_ok_of_valid {l : List RawEntry}
    (h : ∀ r ∈ l, r.date.isValid = true) :
    ∃ es, parseDates l = Except.ok es := by
  induction l with
  | nil => exact ⟨[], rfl⟩
  | cons r rs ih =>
      have hr : r.date.isValid = true := h r (List.mem_cons_self r rs)
      obtain ⟨t, ht⟩ : ∃ t, r.date = DateField.valid t := by
        cases hd : r.date <;> simp [hd, DateField.isValid] at hr ⊢
      obtain ⟨es, hes⟩ := ih (fun x hx => h x (List.mem_cons_of_mem r hx))
      exact ⟨r.withDate t :: es, by simp [parseDates, ht, parseDate, hes]⟩

theorem parseDates_error_of_invalid {l : List RawEntry}
    (h : ∃ r ∈ l, r.date.isValid = false) :
    ∃ msg, parseDates l = Except.error msg ∧ 0 < msg.length := by
  induction l with
  | nil => simp at h
  | cons r rs ih =>
      cases hd : r.date with
      | missing =>
          exact ⟨"missing date field", by simp [parseDates, hd, parseDate], by decide⟩
      | malformed raw =>
          refine ⟨"malformed date value: " ++ raw, by simp [parseDates, hd, parseDate], ?_⟩
          have h1 : ("malformed date value: " ++ raw).length
              = "malformed date value: ".length + raw.length := String.length_append _ _
          have h2 : "malformed date value: ".length = 22 := rfl
          omega
      | valid t =>
          obtain ⟨x, hx, hbad⟩ := h
          rcases List.mem_cons.mp hx with rfl | hmem
          · rw [hd] at hbad; simp [DateField.isValid] at hbad
          · obtain ⟨msg, hmsg, hpos⟩ := ih ⟨x, hmem, hbad⟩
            exact ⟨msg, by simp [parseDates, hd, parseDate, hmsg], hpos⟩

/-- C1: for every input sequence, `getSortedEvents` returns a permutation
of the input that is ordered by date descending, stably (the subsequence
of entries carrying any fixed date equals that subsequence of the input);
in particular, entries dated 2024-01-01, 2024-06-01 and 2023-01-01 sort
to the order 2024-06-01, 2024-01-01, 2023-01-01. -/
theorem claim_c1_sort_desc_stable :
    (∀ l : List ContentEntry,
        (getSortedEvents l).Perm l
        ∧ List.Pairwise (fun a b => b.date ≤ a.date) (getSortedEvents l)
        ∧ ∀ d : Nat, (getSortedEvents l).filter (fun x => x.date == d)
            = l.filter (fun x => x.date == d))
    ∧ getSortedEvents [exJan24, exJun24, exJan23] = [exJun24, exJan24, exJan23] := by
  refine ⟨fun l => ⟨getSortedEvents_perm l, getSortedEvents_pairwise l,
    fun d => getSortedEvents_stable l d⟩, ?_⟩
  decide

/-- C2 counterexample: on the date-descending sorted sequence holding the
two not-completed entries `cexUpA` then `cexUpB`, the code computes the
not-completed output subsequence as `[cexUpB, cexUpA]` — the reverse of
the relative order the two entries had in the sorted input — so the
partition does not preserve relative order within both subsequences. -/
theorem claim_c2_counterexample :
    getSortedEvents cexSorted = cexSorted
    ∧ cexSorted.filter (fun e => !e.completed) = [cexUpA, cexUpB]
    ∧ upcomingEvents cexSorted = [cexUpB, cexUpA]
    ∧ cexUpA ≠ cexUpB := by
  decide

/-- C2 amended: partitioning the sorted sequence preserves the relative
order of entries inside the completed subsequence, while the
not-completed subsequence is emitted in reverse of its relative order in
the sorted input; on the five-entry example with completed flags true,
false, true, false, true this yields the three completed entries in
original relative order and the two not-completed entries reversed. -/
theorem claim_c2_partition_order :
    (∀ s : List ContentEntry,
        (pastEvents s).Sublist s
        ∧ upcomingEvents s = (s.filter (fun e => !e.completed)).reverse
        ∧ ((upcomingEvents s).reverse).Sublist s)
    ∧ pastEvents exFive = [exF1, exF3, exF5]
    ∧ upcomingEvents exFive = [exF4, exF2] := by
  refine ⟨fun s => ⟨List.filter_sublist s, rfl, ?_⟩, by decide, by decide⟩
  rw [upcomingEvents, List.reverse_reverse]
  exact List.filter_sublist s

/-- C3: the partition of a sorted sequence is total and disjoint: an
entry is in the completed output exactly when it is in the input with
the flag set, in the not-completed output exactly when it is in the
input with the flag unset, membership in the input is equivalent to
membership in one of the outputs, and no entry is in both. -/
theorem claim_c3_partition_total_disjoint :
    ∀ (s : List ContentEntry) (e : ContentEntry),
      (e ∈ pastEvents s ↔ e ∈ s ∧ e.completed = true)
      ∧ (e ∈ upcomingEvents s ↔ e ∈ s ∧ e.completed = false)
      ∧ (e ∈ s ↔ e ∈ pastEvents s ∨ e ∈ upcomingEvents s)
      ∧ ¬(e ∈ pastEvents s ∧ e ∈ upcomingEvents s) := by
  intro s e
  have hp : e ∈ pastEvents s ↔ e ∈ s ∧ e.completed = true := by
    simp [pastEvents, List.mem_filter]
  have hu : e ∈ upcomingEvents s ↔ e ∈ s ∧ e.completed = false := by
    simp [upcomingEvents, List.mem_filter, List.mem_reverse]
  refine ⟨hp, hu, ?_, ?_⟩
  · rw [hp, hu]
    cases hc : e.completed <;> tauto
  · rw [hp, hu]
    cases hc : e.completed <;> simp

/-- C3 witness: the partition equivalences evaluated on the five-entry
example and its second (not completed) entry. -/
theorem claim_c3_witness :
    (exF2 ∈ pastEvents exFive ↔ exF2 ∈ exFive ∧ exF2.completed = true)
    ∧ (exF2 ∈ upcomingEvents exFive ↔ exF2 ∈ exFive ∧ exF2.completed = false)
    ∧ (exF2 ∈ exFive ↔ exF2 ∈ pastEvents exFive ∨ exF2 ∈ upcomingEvents exFive)
    ∧ ¬(exF2 ∈ pastEvents exFive ∧ exF2 ∈ upcomingEvents exFive) :=
  claim_c3_partition_total_disjoint exFive exF2

/-- C4: the speaking feed holds exactly one item per completed entry and
none for a not-completed entry: its item list is a permutation of the
image of the completed entries of the input under the item constructor
(which fills the four fields title, link, description and pubDate), and
its length is the number of completed entries. -/
theorem claim_c4_feed_items :
    ∀ events : List ContentEntry,
      (speakingFeedItems events).Perm
          ((events.filter (fun e => e.completed)).map toRSSItem)
      ∧ (speakingFeedItems events).length
          = (events.filter (fun e => e.completed)).length := by
  intro events
  have h : (speakingFeedItems events).Perm
      ((events.filter (fun e => e.completed)).map toRSSItem) := by
    simp only [speakingFeedItems]
    exact ((getSortedEvents_perm events).filter (fun e => e.completed)).map toRSSItem
  exact ⟨h, by simpa [List.length_map] using h.length_eq⟩

/-- C5: the OG render is deterministic up to the markup tree handed to
the (external, deterministic) rasterizer: the post template output
depends only on the title, the author and the publication date of the
post, and the site template output only on the site configuration, so
two calls with equal input spec produce identical output. -/
theorem claim_c5_render_deterministic :
    (∀ p q : BlogPost, p.title = q.title → p.author = q.author →
        p.pubDatetime = q.pubDatetime → postTemplate p = postTemplate q)
    ∧ (∀ c d : SiteConfig, c = d → siteTemplate c = siteTemplate d) := by
  constructor
  · intro p q h1 h2 h3
    simp only [postTemplate, h1, h2, h3]
  · intro c d h
    rw [h]

/-- C5 witness: two posts equal in title, author and date but different
in draft flag, tags and summary render to the same tree, and the site
template applied twice to the site configuration gives the same tree. -/
theorem claim_c5_witness :
    postTemplate { title := "Rebuilding Remix Contacts", author := "Aurora Scharff",
                   pubDatetime := 202404050800, description := none,
                   tags := [], draft := false }
      = postTemplate { title := "Rebuilding Remix Contacts", author := "Aurora Scharff",
                       pubDatetime := 202404050800, description := some "summary",
                       tags := ["react"], draft := true }
    ∧ siteTemplate { title := "Aurora Scharff", desc := "Blog and portfolio",
                     website := "https://aurorascharff.no/" }
      = siteTemplate { title := "Aurora Scharff", desc := "Blog and portfolio",
                       website := "https://aurorascharff.no/" } :=
  ⟨claim_c5_render_deterministic.1 _ _ rfl rfl rfl,
   claim_c5_render_deterministic.2 _ _ rfl⟩

/-- C6 counterexample: the speaking collection holds two distinct
completed React Advanced London 2025 entries sharing the date
2025-11-28T08:00:00Z; in the resulting past partition the two entries sit
side by side with equal dates, so entries within a partition are not
strictly ordered by date. -/
theorem claim_c6_counterexample :
    (pastEvents (getSortedEvents raCollection)).map (fun e => (e.date, e.address))
      = [(202511280800, none), (202511280800, some "London, UK")]
    ∧ raTalkNoAddr ≠ raTalkAddr := by
  decide

/-- C6 amended: entries within each partition of a sorted speaking
collection are ordered by date, non-strictly — the past partition is
date-descending and the upcoming partition (being reversed) is
date-ascending; entries sharing a date stay in input order. -/
theorem claim_c6_partition_sorted :
    ∀ l : List ContentEntry,
      List.Pairwise (fun a b => b.date ≤ a.date) (pastEvents (getSortedEvents l))
      ∧ List.Pairwise (fun a b => a.date ≤ b.date) (upcomingEvents (getSortedEvents l)) := by
  intro l
  refine ⟨(getSortedEvents_pairwise l).filter _, ?_⟩
  rw [upcomingEvents, List.pairwise_reverse]
  exact (getSortedEvents_pairwise l).filter _

/-- C7: rendering an OG image from an input whose required title field
is missing fails with a validation error instead of emitting an image. -/
theorem claim_c7_missing_title_fails :
    ∀ p : RawPost, p.title = none →
      renderOgImage p = Except.error "validation error: missing required field: title" := by
  intro p h
  simp [renderOgImage, h]

/-- C7 witness: the render operation evaluated on a concrete post record
without a title. -/
theorem claim_c7_witness :
    renderOgImage { title := none, author := "Aurora Scharff",
                    pubDatetime := 202404050800, description := none,
                    tags := [], draft := false }
      = Except.error "validation error: missing required field: title" :=
  claim_c7_missing_title_fails _ rfl

/-- C8: the checked sorter fails, with a descriptive (nonempty) error
message, exactly on inputs holding a missing or malformed date value —
malformed dates are its only error condition; on all other inputs it
returns a sorted sequence. -/
theorem claim_c8_malformed_date_fails :
    ∀ l : List RawEntry,
      (∃ r ∈ l, r.date.isValid = false)
        ↔ ∃ msg, getSortedEventsChecked l = Except.error msg ∧ 0 < msg.length := by
  intro l
  constructor
  · intro hbad
    obtain ⟨msg, hmsg, hpos⟩ := parseDates_error_of_invalid hbad
    exact ⟨msg, by simp [getSortedEventsChecked, hmsg], hpos⟩
  · rintro ⟨msg, hmsg, -⟩
    by_contra hno
    push_neg at hno
    have hall : ∀ r ∈ l, r.date.isValid = true := by
      intro r hr
      cases hv : r.date.isValid
      · exact absurd hv (hno r hr)
      · rfl
    obtain ⟨es, hes⟩ := parseDates_ok_of_valid hall
    simp [getSortedEventsChecked, hes] at hmsg

/-- C8 witness: the checked sorter evaluated on a singleton sequence
holding the malformed repository date text 2025-11-28T000:00Z fails with
a descriptive error. -/
theorem claim_c8_witness :
    ∃ msg,
      getSortedEventsChecked
          [{ organizer := "React Advanced London 2025",
             name := "Talk: Building Interactive, Async UI with React 19 and Ariakit",
             date := DateField.malformed "2025-11-28T000:00Z", completed := false,
             address := none, link := none,
             websiteLink := some "https://reactadvanced.com", description := none }]
        = Except.error msg ∧ 0 < msg.length :=
  (claim_c8_malformed_date_fails _).mp
    ⟨_, List.mem_cons_self _ _, rfl⟩

/-- C9: the about-page computation mutates neither its input nor the
sorted sequence: in the heap model, after the sort allocation, the two
filter allocations and the in-place reversal of the upcoming array, the
input array (index 0) still holds the loaded entries, the sorted array
(index 1) still holds the sorted entries, and the two partition arrays
hold the two partitions. -/
theorem claim_c9_no_mutation :
    ∀ events : List ContentEntry,
      (aboutPageHeap events).getArr 0 = events
      ∧ (aboutPageHeap events).getArr 1 = getSortedEvents events
      ∧ (aboutPageHeap events).getArr 2 = pastEvents (getSortedEvents events)
      ∧ (aboutPageHeap events).getArr 3 = upcomingEvents (getSortedEvents events) := by
  intro events
  exact ⟨rfl, rfl, rfl, rfl⟩

/-- C10 counterexample: on a completed entry whose description is present
but empty and whose address is "Remote", the feed code emits the item
description "Remote", while the claim (dropping only missing fields)
demands the join of the empty description with the address; the two
differ, so the claim as stated is false. -/
theorem claim_c10_counterexample :
    (toRSSItem cexFeedEntry).description
      ≠ specItemDescription cexFeedEntry.description cexFeedEntry.address := by
  decide

/-- C10 amended: the item link is never absent — it is the entry link if
present, else the website link if present, else the literal "speaking/" —
and the item description is the description and the address joined with
" | ", dropping whichever of the two is missing or empty. -/
theorem claim_c10_item_link_description :
    ∀ e : ContentEntry,
      (toRSSItem e).link = e.link.getD (e.websiteLink.getD "speaking/")
      ∧ (toRSSItem e).description
          = amendedItemDescription e.description e.address := by
  intro e
  refine ⟨rfl, ?_⟩
  rcases hd : e.description with _ | d
  · rcases ha : e.address with _ | a
    · simp [toRSSItem, filterBoolean, amendedItemDescription, truthy, joinWith, hd, ha]
    · by_cases hae : a = "" <;>
        simp [toRSSItem, filterBoolean, amendedItemDescription, truthy,
          joinWith, hd, ha, hae]
  · rcases ha : e.address with _ | a
    · by_cases hde : d = "" <;>
        simp [toRSSItem, filterBoolean, amendedItemDescription, truthy,
          joinWith, hd, ha, hde]
    · by_cases hde : d = "" <;> by_cases hae : a = "" <;>
        simp [toRSSItem, filterBoolean, amendedItemDescription, truthy,
          joinWith, hd, ha, hde, hae]
